import Mathlib

/-!
# Model Lifecycle & Telemetry Manager — shallow embedding

A shallow embedding of the metrics, lifecycle and bridge logic of the
Gemma3na React-Native repository, together with theorems settling the
frozen specification claims.

Numbers: JavaScript/Kotlin numeric values are modelled as `ℚ` (for
durations, averages and rates) and `ℕ`/`ℤ` (for counts, timestamps and
byte sizes).  Division in `ℚ` is total with `x / 0 = 0`; the JavaScript
counterpart would produce `Infinity`/`NaN` there, but no claim below
depends on a division whose divisor can be zero (every such division in
the source is guarded by an emptiness check that we embed as well).
-/

namespace Gemma

/-! ## MetricsManager (src/purrpal/lib/managers/MetricsManager.ts) -/

/-- `InferenceMetrics` record from MetricsManager.ts. -/
structure InferenceMetrics where
  response : String
  inferenceTimeMs : ℚ
  tokenCount : ℕ
  tokensPerSecond : ℚ
  timestamp : ℕ
deriving DecidableEq, Repr

/-- The mutable state of a `MetricsManager` instance: the `metrics`
history array and the `sessionStartTime` clock value. -/
structure MetricsState where
  metrics : List InferenceMetrics
  sessionStartTime : ℕ
deriving DecidableEq, Repr

/-- `maxHistorySize = 100` ("Keep last 100 inferences"). -/
def maxHistorySize : ℕ := 100

/-- A fresh `MetricsManager` constructed at time `now`:
empty history, `sessionStartTime = Date.now()`. -/
def initialMetrics (now : ℕ) : MetricsState :=
  { metrics := [], sessionStartTime := now }

/-- JavaScript `array.slice(-count)`: the last `count` elements of the
array (the whole array when `count = 0`, since `slice(-0)` is `slice(0)`). -/
def sliceLast {α : Type} (count : ℕ) (l : List α) : List α :=
  if count = 0 then l else l.drop (l.length - count)

/-- `recordInference(rawResult)`: computes `tokensPerSecond`, appends the
record to `metrics`, and if the length now exceeds `maxHistorySize`
replaces `metrics` with `metrics.slice(-maxHistorySize)`. -/
def recordInference (s : MetricsState) (response : String)
    (inferenceTimeMs : ℚ) (tokenCount : ℕ) (now : ℕ) : MetricsState :=
  let m : InferenceMetrics :=
    { response := response
      inferenceTimeMs := inferenceTimeMs
      tokenCount := tokenCount
      tokensPerSecond := (tokenCount : ℚ) / (inferenceTimeMs / 1000)
      timestamp := now }
  let pushed := s.metrics ++ [m]
  { s with
    metrics := if maxHistorySize < pushed.length
               then sliceLast maxHistorySize pushed
               else pushed }

/-- Private helper `average(numbers)`: `0` on an empty array, otherwise
sum divided by length. -/
def average (numbers : List ℚ) : ℚ :=
  if numbers = [] then 0 else numbers.sum / (numbers.length : ℚ)

/-- `PerformanceStats` return record of `getPerformanceStats`. -/
structure PerformanceStats where
  totalInferences : ℕ
  averageInferenceTime : ℚ
  averageTokensPerSecond : ℚ
  totalTokens : ℕ
  fastestInference : ℚ
  slowestInference : ℚ
  lastInferenceTime : ℚ
  sessionStartTime : ℕ
deriving DecidableEq, Repr

/-- `Math.min(...xs)` over a nonempty list (given head and tail). -/
def listMin (x : ℚ) (xs : List ℚ) : ℚ := xs.foldl min x

/-- `Math.max(...xs)` over a nonempty list (given head and tail). -/
def listMax (x : ℚ) (xs : List ℚ) : ℚ := xs.foldl max x

/-- `getPerformanceStats()`: all-zero statistics (with the stored
`sessionStartTime`) on an empty history, otherwise aggregates over the
whole history. -/
def getPerformanceStats (s : MetricsState) : PerformanceStats :=
  match s.metrics with
  | [] =>
    { totalInferences := 0
      averageInferenceTime := 0
      averageTokensPerSecond := 0
      totalTokens := 0
      fastestInference := 0
      slowestInference := 0
      lastInferenceTime := 0
      sessionStartTime := s.sessionStartTime }
  | m0 :: rest =>
    let inferenceTimes := (m0 :: rest).map (·.inferenceTimeMs)
    let tokensPerSecond := (m0 :: rest).map (·.tokensPerSecond)
    let totalTokens := ((m0 :: rest).map (·.tokenCount)).sum
    { totalInferences := (m0 :: rest).length
      averageInferenceTime := average inferenceTimes
      averageTokensPerSecond := average tokensPerSecond
      totalTokens := totalTokens
      fastestInference := listMin m0.inferenceTimeMs (rest.map (·.inferenceTimeMs))
      slowestInference := listMax m0.inferenceTimeMs (rest.map (·.inferenceTimeMs))
      lastInferenceTime := ((m0 :: rest).getLast (by simp)).inferenceTimeMs
      sessionStartTime := s.sessionStartTime }

/-- `getRollingAverage(metric, windowSize)`: `0` on an empty history,
otherwise the average of `metric` over `metrics.slice(-windowSize)`.
The `metric` key is embedded as a numeric projection out of the record
(the source's `typeof v === 'number'` filter is the identity for the
numeric fields used). -/
def getRollingAverage (s : MetricsState) (metric : InferenceMetrics → ℚ)
    (windowSize : ℕ) : ℚ :=
  if s.metrics = [] then 0
  else average ((sliceLast windowSize s.metrics).map metric)

/-- Percentile quadruple returned by `getPercentiles`. -/
structure Percentiles where
  p50 : ℚ
  p90 : ℚ
  p95 : ℚ
  p99 : ℚ
deriving DecidableEq, Repr

/-- Private helper `percentile(sortedArray, percentile)`: linear
interpolation between the two ranked samples bracketing the rank
`(p/100) * (length - 1)`. -/
def percentileOf (sortedArray : List ℚ) (p : ℚ) : ℚ :=
  if sortedArray = [] then 0
  else
    let index : ℚ := (p / 100) * ((sortedArray.length : ℚ) - 1)
    let lower : ℤ := ⌊index⌋
    let upper : ℤ := ⌈index⌉
    if lower = upper then sortedArray.getD lower.toNat 0
    else
      let weight : ℚ := index - (lower : ℚ)
      sortedArray.getD lower.toNat 0 * (1 - weight)
        + sortedArray.getD upper.toNat 0 * weight

/-- `values.sort((a, b) => a - b)`: ascending numeric sort. -/
def sortAscending (values : List ℚ) : List ℚ :=
  values.mergeSort (· ≤ ·)

/-- `getPercentiles(metric)`: zero quadruple on an empty history,
otherwise the interpolated percentiles of the sorted metric values. -/
def getPercentiles (s : MetricsState) (metric : InferenceMetrics → ℚ) :
    Percentiles :=
  if s.metrics = [] then { p50 := 0, p90 := 0, p95 := 0, p99 := 0 }
  else
    let values := sortAscending (s.metrics.map metric)
    { p50 := percentileOf values 50
      p90 := percentileOf values 90
      p95 := percentileOf values 95
      p99 := percentileOf values 99 }

/-- `sessionInfo` component of `exportMetrics`. -/
structure SessionInfo where
  startTime : ℕ
  endTime : ℕ
  duration : ℤ
deriving DecidableEq, Repr

/-- Return record of `exportMetrics`. -/
structure ExportedMetrics where
  sessionInfo : SessionInfo
  performanceStats : PerformanceStats
  allMetrics : List InferenceMetrics
  percentilesInferenceTime : Percentiles
  percentilesTokensPerSecond : Percentiles
deriving DecidableEq, Repr

/-- `exportMetrics()` evaluated with `Date.now() = now`. -/
def exportMetrics (s : MetricsState) (now : ℕ) : ExportedMetrics :=
  { sessionInfo :=
      { startTime := s.sessionStartTime
        endTime := now
        duration := (now : ℤ) - (s.sessionStartTime : ℤ) }
    performanceStats := getPerformanceStats s
    allMetrics := s.metrics
    percentilesInferenceTime := getPercentiles s (·.inferenceTimeMs)
    percentilesTokensPerSecond := getPercentiles s (·.tokensPerSecond) }

/-- `clearHistory()` at time `now`: empties `metrics` and resets
`sessionStartTime` to `Date.now()`. -/
def clearHistory (_s : MetricsState) (now : ℕ) : MetricsState :=
  { metrics := [], sessionStartTime := now }

/-- `getSessionDuration()` at time `now`. -/
def getSessionDuration (s : MetricsState) (now : ℕ) : ℤ :=
  (now : ℤ) - (s.sessionStartTime : ℤ)

/-- `isPerformanceDegrading(windowSize)`: `false` when fewer than
`windowSize * 2` records exist; otherwise compares
`recentAvg = getRollingAverage('inferenceTimeMs', windowSize)` against
`previousAvg = getRollingAverage('inferenceTimeMs', windowSize * 2) - recentAvg`
and reports degradation when `recentAvg > previousAvg * 1.2`. -/
def isPerformanceDegrading (s : MetricsState) (windowSize : ℕ) : Bool :=
  if s.metrics.length < windowSize * 2 then false
  else
    let recentAvg := getRollingAverage s (·.inferenceTimeMs) windowSize
    let previousAvg :=
      getRollingAverage s (·.inferenceTimeMs) (windowSize * 2) - recentAvg
    decide (recentAvg > previousAvg * (12 / 10 : ℚ))

/-- `getInferenceRate()` (inferences per minute) at time `now`:
`0` on an empty history. -/
def getInferenceRate (s : MetricsState) (now : ℕ) : ℚ :=
  if s.metrics = [] then 0
  else
    let sessionDurationMinutes : ℚ := (getSessionDuration s now : ℚ) / (1000 * 60)
    (s.metrics.length : ℚ) / sessionDurationMinutes

/-! ## Device capability probe and backend selection
(src/purrpal/android/.../GemmaBridgeModule.kt, GemmaBridgeCore) -/

/-- Compute backend for a load. -/
inductive Backend
  | CPU
  | GPU
deriving DecidableEq, Repr

/-- The device facts consulted by `isGPUSupported`:
`Build.VERSION.SDK_INT >= Build.VERSION_CODES.N`, the
`FEATURE_VULKAN_HARDWARE_COMPUTE` system feature, and
`MemoryInfo.totalMem` in bytes. -/
structure DeviceCaps where
  sdkAtLeastN : Bool
  hasVulkanHardwareCompute : Bool
  totalMemBytes : ℕ
deriving DecidableEq, Repr

/-- `getAvailableMemoryGB()`: `memInfo.totalMem / (1024 * 1024 * 1024)`
(integer division, truncating). -/
def getAvailableMemoryGB (caps : DeviceCaps) : ℕ :=
  caps.totalMemBytes / (1024 * 1024 * 1024)

/-- `isGPUSupported()`: SDK version at least N, Vulkan hardware compute
feature present, and at least 6 GB of total memory ("Minimum 6GB RAM for
GPU mode").  The catch-all returning `false` on a detection exception is
not modelled (detection here is total). -/
def isGPUSupported (caps : DeviceCaps) : Bool :=
  caps.sdkAtLeastN && caps.hasVulkanHardwareCompute
    && decide (6 ≤ getAvailableMemoryGB caps)

/-- The backend picked by `createLlmInferenceOptions(preferGPU)`: GPU
exactly when `preferGPU && isGPUSupported()`, CPU otherwise.  (The
source's inner try/catch around `setDelegate(GPU)` can only fall back to
CPU if `setDelegate` itself throws; `setDelegate` is a plain builder
setter, so the fallback branch is dead and is not modelled.) -/
def createLlmInferenceOptionsBackend (preferGPU : Bool) (caps : DeviceCaps) :
    Backend :=
  if preferGPU && isGPUSupported caps then Backend.GPU else Backend.CPU

/-- The backend used by any run of `initializeModel()`: it always calls
`createLlmInferenceOptions(preferGPU = true)`. -/
def initializeModelBackend (caps : DeviceCaps) : Backend :=
  createLlmInferenceOptionsBackend true caps

/-- The backend used by a retry attempt: `handleModelLoadFailure` merely
re-schedules `initializeModel()`, which recomputes its options exactly as
the first attempt did — there is no parameter recording the earlier
failure, so the choice is the same function of the device capabilities. -/
def retryAttemptBackend (caps : DeviceCaps) : Backend :=
  initializeModelBackend caps

/-! ## Lazy initialization guard (GemmaBridgeCore.initializeModelIfNeeded) -/

/-- The bridge-core state relevant to loading: whether `llmInference`
is non-null, whether `isInitializing` is set, and how many times an
`LlmInference` instance has ever been created.  The module has no unload
operation, so `modelLoaded` is never cleared. -/
structure CoreState where
  modelLoaded : Bool
  isInitializing : Bool
  instancesCreated : ℕ
deriving DecidableEq, Repr

/-- Fresh `GemmaBridgeCore`: no instance, not initializing. -/
def initialCore : CoreState :=
  { modelLoaded := false, isInitializing := false, instancesCreated := 0 }

/-- Events acting on the core state: a caller invoking
`initializeModelIfNeeded`, and the background `initializeModel` run
completing in success or failure (the `finally` clears `isInitializing`
on both completions). -/
inductive CoreEvent
  | requestInit
  | loadSucceeded
  | loadFailed
deriving DecidableEq, Repr

/-- One step of the core state machine.
`requestInit` is `initializeModelIfNeeded`: it returns without starting
anything when `llmInference != null || isInitializing`, and otherwise
sets `isInitializing` and schedules a load.
`loadSucceeded` is a completing `initializeModel` run: the double-check
`if (llmInference != null) return` makes it a no-op when an instance
already exists; otherwise it assigns `llmInference`, creating exactly one
new instance.  `loadFailed` only clears `isInitializing`. -/
def coreStep (s : CoreState) : CoreEvent → CoreState
  | CoreEvent.requestInit =>
    if s.modelLoaded || s.isInitializing then s
    else { s with isInitializing := true }
  | CoreEvent.loadSucceeded =>
    if s.modelLoaded then { s with isInitializing := false }
    else
      { modelLoaded := true
        isInitializing := false
        instancesCreated := s.instancesCreated + 1 }
  | CoreEvent.loadFailed => { s with isInitializing := false }

/-- Run the core state machine from the fresh state. -/
def coreRun (events : List CoreEvent) : CoreState :=
  events.foldl coreStep initialCore

/-! ## generateResponse dispatch (GemmaBridgeModule.generateResponse) -/

/-- What `generateResponse` does before any inference work: an immediate
`promise.reject(code, message)`, a re-scheduled retry
(`Thread.sleep(2000)` on the background executor followed by calling
`generateResponse` again), or proceeding to run the inference. -/
inductive GenerateOutcome
  | rejected (code : String) (message : String)
  | scheduledRetry
  | runsInference
deriving DecidableEq, Repr

/-- `GemmaErrorCode.INFERENCE_ERROR`. -/
def errInferenceError : String := "INFERENCE_ERROR"

/-- `GemmaErrorCode.MODEL_NOT_FOUND`. -/
def errModelNotFound : String := "MODEL_NOT_FOUND"

/-- The dispatch of `generateResponse(prompt)` as a function of the
prompt length and the bridge state observed at the
`if (llmInference == null)` check (the preceding
`bridge.initializeModelIfNeeded()` call is modelled separately by
`coreStep CoreEvent.requestInit`): empty and over-long prompts reject
immediately; a null model still initializing re-schedules the whole call
after a 2 s sleep; a null model with no initialization in flight rejects
with `MODEL_NOT_FOUND`; otherwise the inference runs. -/
def generateResponseDispatch (promptLength : ℕ) (modelLoaded : Bool)
    (isInitializing : Bool) : GenerateOutcome :=
  if promptLength = 0 then
    GenerateOutcome.rejected errInferenceError "Prompt cannot be empty"
  else if 8192 < promptLength then
    GenerateOutcome.rejected errInferenceError
      "Prompt too long (max 8192 characters)"
  else if modelLoaded = false then
    if isInitializing then GenerateOutcome.scheduledRetry
    else GenerateOutcome.rejected errModelNotFound "Model failed to load"
  else GenerateOutcome.runsInference

/-! ## Kotlin retry policy (handleModelLoadFailure) -/

/-- `maxLoadAttempts = 3`. -/
def maxLoadAttempts : ℕ := 3

/-- The retry decision of `handleModelLoadFailure` after attempt
`attemptNumber` has failed (`modelLoadAttempts = attemptNumber` at that
point): when `modelLoadAttempts < maxLoadAttempts` it re-schedules
`initializeModel` after `modelLoadAttempts * 2000L` ms ("2, 4, 6
seconds"); otherwise it gives up (`none`). -/
def ktNextDelay (attemptNumber : ℕ) : Option ℕ :=
  if attemptNumber < maxLoadAttempts then some (attemptNumber * 2000)
  else none

/-- Outcome of one physical load attempt, with its failure category. -/
inductive AttemptOutcome
  | success
  | failure (category : String)
deriving DecidableEq, Repr

/-- Number of `initializeModel` runs in one Kotlin load cycle, given the
outcome of each attempt number: `initializeModel` increments
`modelLoadAttempts` to `n + 1`; on success the cycle ends, on failure
`handleModelLoadFailure` retries only while `modelLoadAttempts <
maxLoadAttempts`. -/
def ktLoadAttemptsFrom (outcomes : ℕ → AttemptOutcome) (n : ℕ) : ℕ :=
  if outcomes (n + 1) = AttemptOutcome.success then 1
  else if h : n + 1 < maxLoadAttempts then 1 + ktLoadAttemptsFrom outcomes (n + 1)
  else 1
termination_by maxLoadAttempts - n

/-- Attempts made in a full Kotlin load cycle starting from
`modelLoadAttempts = 0`. -/
def ktLoadAttempts (outcomes : ℕ → AttemptOutcome) : ℕ :=
  ktLoadAttemptsFrom outcomes 0

/-! ## ModelManager (src/purrpal/lib/managers/ModelManager.ts) -/

/-- `ModelConfig`. -/
structure ModelConfig where
  useGPU : Bool
  autoLoad : Bool
  retryAttempts : ℕ
  retryDelay : ℕ
deriving DecidableEq, Repr

/-- The constructor's default configuration. -/
def defaultConfig : ModelConfig :=
  { useGPU := true, autoLoad := false, retryAttempts := 3, retryDelay := 2000 }

/-- The fields of `ModelStatus` the claims are about. -/
structure ModelStatus where
  isLoaded : Bool
  isLoading : Bool
  error : Option String
  backend : Option Backend
deriving DecidableEq, Repr

/-- The re-entrancy guard at the top of `loadModel`: when
`status.isLoading` the call logs "Model is already loading" and returns
`false` at once (`some false`); otherwise it proceeds with the load
(`none`). -/
def loadModelGuard (s : ModelStatus) : Option Bool :=
  if s.isLoading then some false else none

/-- The wait before the next attempt inside `loadModelWithRetry`: the
constant `config.retryDelay`, taken only when `attempt <
config.retryAttempts` (after the last attempt the loop just exits). -/
def tsNextDelay (config : ModelConfig) (attemptNumber : ℕ) : Option ℕ :=
  if attemptNumber < config.retryAttempts then some config.retryDelay
  else none

/-- The `for (attempt = 1; attempt <= retryAttempts; attempt++)` loop of
`loadModelWithRetry`, as a function of the outcome of each attempt
number: returns `true` on the first successful attempt, `false` when the
iterations are exhausted.  The first argument is the number of loop
iterations remaining. -/
def tsRetryLoop (outcomes : ℕ → AttemptOutcome) : ℕ → ℕ → Bool
  | 0, _ => false
  | fuel + 1, attempt =>
    if outcomes attempt = AttemptOutcome.success then true
    else tsRetryLoop outcomes fuel (attempt + 1)

/-- `loadModelWithRetry` overall success. -/
def loadModelWithRetrySucceeds (outcomes : ℕ → AttemptOutcome)
    (retryAttempts : ℕ) : Bool :=
  tsRetryLoop outcomes retryAttempts 1

/-- Number of attempts the `loadModelWithRetry` loop actually makes. -/
def tsAttemptsMade (outcomes : ℕ → AttemptOutcome) : ℕ → ℕ → ℕ
  | 0, _ => 0
  | fuel + 1, attempt =>
    if outcomes attempt = AttemptOutcome.success then 1
    else 1 + tsAttemptsMade outcomes fuel (attempt + 1)

/-- The message `loadAndroidModel` throws when `loadModelWithRetry`
returns `false`. -/
def androidRetryExhaustedMessage : String :=
  "Android model loading failed after all retry attempts"

/-- The tail of `loadAndroidModel` (after permission, path and validation
checks have passed): run `loadModelWithRetry`; on success return `true`,
otherwise throw the fixed generic message. -/
def loadAndroidModelOutcome (outcomes : ℕ → AttemptOutcome)
    (config : ModelConfig) : Except String Bool :=
  if loadModelWithRetrySucceeds outcomes config.retryAttempts then
    Except.ok true
  else Except.error androidRetryExhaustedMessage

/-- `loadModel`'s catch handler applied to the Android path: a thrown
error makes the call return `false` with `status.error` set to the thrown
message (the controller's error state); on success the call returns
`true` with `status.error = null`. -/
def loadModelAndroidResult (outcomes : ℕ → AttemptOutcome)
    (config : ModelConfig) : Bool × Option String :=
  match loadAndroidModelOutcome outcomes config with
  | Except.ok b => (b, none)
  | Except.error m => (false, some m)

/-- An attempt-outcome assignment in which every load attempt fails with
the out-of-memory category. -/
def alwaysOOM : ℕ → AttemptOutcome := fun _ => AttemptOutcome.failure "OutOfMemory"

/-! ## Record sequences -/

/-- The argument quadruple of one `recordInference` call. -/
structure RecordArgs where
  response : String
  inferenceTimeMs : ℚ
  tokenCount : ℕ
  now : ℕ
deriving DecidableEq, Repr

/-- The record a `recordInference` call appends. -/
def mkRecord (a : RecordArgs) : InferenceMetrics :=
  { response := a.response
    inferenceTimeMs := a.inferenceTimeMs
    tokenCount := a.tokenCount
    tokensPerSecond := (a.tokenCount : ℚ) / (a.inferenceTimeMs / 1000)
    timestamp := a.now }

/-- A sequence of `recordInference` calls, applied in order. -/
def applyRecords (s : MetricsState) (rs : List RecordArgs) : MetricsState :=
  rs.foldl
    (fun s a => recordInference s a.response a.inferenceTimeMs a.tokenCount a.now)
    s

/-- A history of inference durations, recorded through `recordInference`
(token count 1, timestamp 0 throughout). -/
def recordDurations (ds : List ℚ) : MetricsState :=
  applyRecords (initialMetrics 0)
    (ds.map fun d =>
      { response := "", inferenceTimeMs := d, tokenCount := 1, now := 0 })

/-- `n` record calls whose token counts number them `0, 1, ..., n - 1`. -/
def numberedArgs (n : ℕ) : List RecordArgs :=
  (List.range n).map fun i =>
    { response := "", inferenceTimeMs := 1000, tokenCount := i, now := 0 }

/-! ## Ring-buffer lemmas -/

theorem sliceLast_nil {α : Type} (k : ℕ) : sliceLast k ([] : List α) = [] := by
  simp [sliceLast]

theorem sliceLast_length_le {α : Type} (k : ℕ) (hk : k ≠ 0) (l : List α) :
    (sliceLast k l).length ≤ k := by
  simp only [sliceLast, if_neg hk, List.length_drop]
  omega

theorem recordInference_metrics (s : MetricsState) (a : RecordArgs) :
    (recordInference s a.response a.inferenceTimeMs a.tokenCount a.now).metrics
      = if maxHistorySize < (s.metrics ++ [mkRecord a]).length
        then sliceLast maxHistorySize (s.metrics ++ [mkRecord a])
        else s.metrics ++ [mkRecord a] := rfl

theorem sliceLast_append_singleton {α : Type} (k : ℕ) (hk : k ≠ 0)
    (acc : List α) (m : α) :
    (if k < (sliceLast k acc ++ [m]).length
     then sliceLast k (sliceLast k acc ++ [m])
     else sliceLast k acc ++ [m])
    = sliceLast k (acc ++ [m]) := by
  have hsl : sliceLast k acc = acc.drop (acc.length - k) := by
    simp [sliceLast, hk]
  by_cases hlt : acc.length < k
  · have h0 : acc.length - k = 0 := by omega
    have hacc : sliceLast k acc = acc := by rw [hsl, h0, List.drop_zero]
    rw [hacc]
    have hcond : ¬ k < (acc ++ [m]).length := by
      simp only [List.length_append, List.length_cons, List.length_nil]
      omega
    rw [if_neg hcond]
    have h1 : acc.length + 1 - k = 0 := by omega
    simp [sliceLast, hk, h1]
  · have hk_le : k ≤ acc.length := by omega
    have hlen : (acc.drop (acc.length - k)).length = k := by
      rw [List.length_drop]; omega
    rw [hsl]
    have hlen2 : (acc.drop (acc.length - k) ++ [m]).length = k + 1 := by
      simp [hlen]
    rw [if_pos (by rw [hlen2]; omega)]
    have hL : sliceLast k (acc.drop (acc.length - k) ++ [m])
        = (acc.drop (acc.length - k) ++ [m]).drop 1 := by
      simp only [sliceLast, if_neg hk, hlen2]
      have h1 : k + 1 - k = 1 := by omega
      rw [h1]
    have hR : sliceLast k (acc ++ [m])
        = (acc ++ [m]).drop (acc.length + 1 - k) := by
      simp only [sliceLast, if_neg hk, List.length_append, List.length_cons,
        List.length_nil]
    rw [hL, hR]
    rw [List.drop_append_of_le_length (by rw [hlen]; omega),
      List.drop_drop,
      List.drop_append_of_le_length (by omega : acc.length + 1 - k ≤ acc.length)]
    have h2 : acc.length - k + 1 = acc.length + 1 - k := by omega
    rw [h2]

theorem applyRecords_metrics (rs : List RecordArgs) :
    ∀ (acc : List InferenceMetrics) (s : MetricsState),
      s.metrics = sliceLast maxHistorySize acc →
      (applyRecords s rs).metrics
        = sliceLast maxHistorySize (acc ++ rs.map mkRecord) := by
  induction rs with
  | nil => intro acc s h; simpa [applyRecords] using h
  | cons a rs ih =>
    intro acc s h
    have hstep :
        (recordInference s a.response a.inferenceTimeMs a.tokenCount a.now).metrics
          = sliceLast maxHistorySize (acc ++ [mkRecord a]) := by
      rw [recordInference_metrics, h]
      exact sliceLast_append_singleton maxHistorySize (by decide) acc (mkRecord a)
    have hrec := ih (acc ++ [mkRecord a]) _ hstep
    simpa [applyRecords, List.append_assoc] using hrec

theorem applyRecords_from_empty (t : ℕ) (rs : List RecordArgs) :
    (applyRecords (initialMetrics t) rs).metrics
      = sliceLast maxHistorySize (rs.map mkRecord) := by
  have h := applyRecords_metrics rs [] (initialMetrics t) (by simp [initialMetrics, sliceLast_nil])
  simpa using h

/-! ## Supporting lemmas for the state-machine and retry claims -/

theorem coreStep_inv (s : CoreState) (e : CoreEvent)
    (h : s.instancesCreated = if s.modelLoaded then 1 else 0) :
    (coreStep s e).instancesCreated
      = if (coreStep s e).modelLoaded then 1 else 0 := by
  cases e <;> simp only [coreStep] <;> split <;> simp_all

theorem coreFold_inv (events : List CoreEvent) :
    ∀ s : CoreState, s.instancesCreated = (if s.modelLoaded then 1 else 0) →
      (events.foldl coreStep s).instancesCreated
        = if (events.foldl coreStep s).modelLoaded then 1 else 0 := by
  induction events with
  | nil => intro s h; simpa using h
  | cons e es ih =>
    intro s h
    simpa [List.foldl_cons] using ih (coreStep s e) (coreStep_inv s e h)

theorem ktLoadAttemptsFrom_last (outcomes : ℕ → AttemptOutcome) (n : ℕ)
    (h : maxLoadAttempts ≤ n + 1) : ktLoadAttemptsFrom outcomes n = 1 := by
  unfold ktLoadAttemptsFrom
  split
  · rfl
  · rw [dif_neg (by omega)]

theorem tsRetryLoop_all_fail (outcomes : ℕ → AttemptOutcome)
    (h : ∀ n, outcomes n ≠ AttemptOutcome.success) :
    ∀ fuel attempt, tsRetryLoop outcomes fuel attempt = false := by
  intro fuel
  induction fuel with
  | zero => intro attempt; rfl
  | succ fuel ih => intro attempt; simp [tsRetryLoop, h attempt, ih]

/-! ## Claims -/

/-- C1 (amended): a `loadModel`/`initializeModelIfNeeded` call that
arrives while another load is in flight never starts a second physical
load — over every event sequence the Kotlin core creates at most one
`LlmInference` instance — but on the TypeScript side the second caller
does NOT receive the in-flight operation's eventual result: `loadModel`
returns `false` immediately whenever `status.isLoading` is set. -/
theorem claim1_single_instance_amended :
    (∀ events : List CoreEvent, (coreRun events).instancesCreated ≤ 1)
    ∧ (∀ s : ModelStatus, s.isLoading = true → loadModelGuard s = some false) := by
  constructor
  · intro events
    have h := coreFold_inv events initialCore (by simp [initialCore])
    unfold coreRun
    rw [h]
    split <;> omega
  · intro s h
    simp [loadModelGuard, h]

/-- C1 counterexample: the claim as stated says the second caller
receives the in-flight operation's eventual result.  In the concrete
scenario where a load is in flight (`status.isLoading = true`) and that
load eventually succeeds (result `true`), the second `loadModel` call
instead returns `false` immediately — `some false`, not the in-flight
result `some true`. -/
theorem claim1_coalescing_counterexample :
    loadModelGuard
      { isLoaded := false, isLoading := true, error := none, backend := none }
      = some false
    ∧ (some false : Option Bool) ≠ some true := by
  exact ⟨rfl, by decide⟩

/-- Witness for claim1: the amended theorem applied to a concrete event
sequence with two competing initialization requests, and to the concrete
loading status. -/
theorem claim1_single_instance_witness :
    (coreRun [CoreEvent.requestInit, CoreEvent.requestInit,
        CoreEvent.loadSucceeded, CoreEvent.requestInit,
        CoreEvent.loadSucceeded]).instancesCreated ≤ 1
    ∧ loadModelGuard
        { isLoaded := false, isLoading := true, error := none, backend := none }
        = some false :=
  ⟨claim1_single_instance_amended.1 _, claim1_single_instance_amended.2 _ rfl⟩

/-- C2 (code bug): the degradation check is evaluated on the recorded
duration sequences of the claim.  With ten records all of duration 100
(recent-window mean equal to the prior-window mean, so the claim demands
`false`) the code returns `true`, because `previousAvg` is computed as
`getRollingAverage(last 2w) - recentAvg` — the mean of the last ten
minus the recent mean — instead of the mean of the window preceding the
recent one, contradicting the source's own comment ("Performance is
degrading if recent average is 20% slower than previous").  The other
two conjuncts record where code and claim agree: the claim's synthetic
sequence `[100 x5, 300 x5]` yields `true`, and with fewer than
`2 * windowSize` records the check yields `false`. -/
theorem claim2_degradation_check_code_bug :
    isPerformanceDegrading (recordDurations (List.replicate 10 (100 : ℚ))) 5 = true
    ∧ isPerformanceDegrading
        (recordDurations
          (List.replicate 5 (100 : ℚ) ++ List.replicate 5 (300 : ℚ))) 5 = true
    ∧ isPerformanceDegrading (recordDurations (List.replicate 9 (100 : ℚ))) 5
        = false := by
  refine ⟨?_, ?_, ?_⟩ <;> with_unfolding_all decide

/-- C3 counterexample: in `loadModelWithRetry` the wait between attempts
is the constant `config.retryDelay = 2000` ms — the delay before attempt
2 equals the delay before attempt 1 and is not `2 * baseDelay`, so the
delay sequence of the TypeScript manager is not strictly increasing. -/
theorem claim3_retry_delay_counterexample :
    tsNextDelay defaultConfig 1 = some 2000
    ∧ tsNextDelay defaultConfig 2 = some 2000
    ∧ tsNextDelay defaultConfig 2 ≠ some (2 * 2000) := by
  refine ⟨rfl, rfl, by decide⟩

/-- C3 (amended): the Kotlin bridge's retry policy is the claimed pure
function — delay `attemptNumber * 2000` ms for attempts below
`maxLoadAttempts = 3`, strictly increasing across returned delays, and
give-up (`none`) at or above the maximum — and neither loop ever makes
more than the configured number of attempts; but the TypeScript
manager's delay is the constant 2000 ms (see the counterexample), not
`attemptNumber * baseDelay`. -/
theorem claim3_retry_delay_amended :
    (∀ n : ℕ, 1 ≤ n → n < maxLoadAttempts → ktNextDelay n = some (n * 2000))
    ∧ (∀ m n dm dn : ℕ, ktNextDelay m = some dm → ktNextDelay n = some dn →
        m < n → dm < dn)
    ∧ (∀ n : ℕ, maxLoadAttempts ≤ n → ktNextDelay n = none)
    ∧ (∀ (outcomes : ℕ → AttemptOutcome) (fuel attempt : ℕ),
        tsAttemptsMade outcomes fuel attempt ≤ fuel)
    ∧ (∀ outcomes : ℕ → AttemptOutcome,
        ktLoadAttempts outcomes ≤ maxLoadAttempts) := by
  refine ⟨?_, ?_, ?_, ?_, ?_⟩
  · intro n _ hn
    simp [ktNextDelay, hn]
  · intro m n dm dn hm hn hmn
    unfold ktNextDelay at hm hn
    split at hm <;> split at hn <;> simp_all
    omega
  · intro n hn
    simp [ktNextDelay]
    omega
  · intro outcomes fuel
    induction fuel with
    | zero => intro attempt; simp [tsAttemptsMade]
    | succ fuel ih =>
      intro attempt
      simp only [tsAttemptsMade]
      split
      · omega
      · have := ih (attempt + 1)
        omega
  · intro outcomes
    unfold ktLoadAttempts
    unfold ktLoadAttemptsFrom
    split
    · simp [maxLoadAttempts]
    · rw [dif_pos (by simp [maxLoadAttempts])]
      unfold ktLoadAttemptsFrom
      split
      · simp [maxLoadAttempts]
      · rw [dif_pos (by simp [maxLoadAttempts])]
        rw [ktLoadAttemptsFrom_last outcomes 2 (by simp [maxLoadAttempts])]
        decide

/-- Witness for claim3: the amended theorem applied at concrete attempt
numbers and at the all-failures outcome assignment. -/
theorem claim3_retry_delay_witness :
    ktNextDelay 1 = some (1 * 2000)
    ∧ (2000 : ℕ) < 4000
    ∧ ktNextDelay 3 = none
    ∧ tsAttemptsMade alwaysOOM 3 1 ≤ 3
    ∧ ktLoadAttempts alwaysOOM ≤ maxLoadAttempts :=
  ⟨claim3_retry_delay_amended.1 1 (by decide) (by decide),
   claim3_retry_delay_amended.2.1 1 2 2000 4000 (by decide) (by decide) (by decide),
   claim3_retry_delay_amended.2.2.1 3 (by decide),
   claim3_retry_delay_amended.2.2.2.1 alwaysOOM 3 1,
   claim3_retry_delay_amended.2.2.2.2 alwaysOOM⟩

/-- C4 (code bug): on a Vulkan-capable device with 8 GB of memory, a
retry attempt scheduled by `handleModelLoadFailure` after a
backend-related failure selects the GPU backend again — `initializeModel`
always recomputes its options with `preferGPU = true` and consults only
the device capabilities, so nothing forces CPU on later attempts,
contradicting the handler's own comment ("Try with CPU backend on next
attempt if GPU failed") and the claim. -/
theorem claim4_retry_backend_code_bug :
    retryAttemptBackend
      { sdkAtLeastN := true, hasVulkanHardwareCompute := true,
        totalMemBytes := 8 * 1024 * 1024 * 1024 } = Backend.GPU
    ∧ Backend.GPU ≠ Backend.CPU := by
  exact ⟨by decide, by decide⟩

/-- C5 counterexample: `generateResponse` invoked with a valid prompt
while the model is still initializing (`llmInference == null`,
`isInitializing = true`, the LOADING phase) does not reject — it
re-schedules itself after a 2 s sleep, which is precisely the queueing
the claim rules out. -/
theorem claim5_not_ready_counterexample :
    generateResponseDispatch 5 false true = GenerateOutcome.scheduledRetry
    ∧ GenerateOutcome.scheduledRetry
        ≠ GenerateOutcome.rejected errModelNotFound "Model failed to load" := by
  exact ⟨rfl, by simp⟩

/-- C5 (amended): for any valid prompt, a `generateResponse` call that
observes a null model with an initialization in flight is re-scheduled
after a 2 s delay (not rejected, not run); an immediate
`MODEL_NOT_FOUND` rejection happens only when the model is null and no
initialization is in flight. -/
theorem claim5_not_ready_amended (p : ℕ) (h1 : p ≠ 0) (h2 : p ≤ 8192) :
    generateResponseDispatch p false true = GenerateOutcome.scheduledRetry
    ∧ generateResponseDispatch p false false
        = GenerateOutcome.rejected errModelNotFound "Model failed to load" := by
  have h3 : ¬ 8192 < p := by omega
  constructor <;> simp [generateResponseDispatch, h1, h3]

/-- Witness for claim5: the amended theorem at a five-character prompt. -/
theorem claim5_not_ready_witness :
    generateResponseDispatch 7 false true = GenerateOutcome.scheduledRetry
    ∧ generateResponseDispatch 7 false false
        = GenerateOutcome.rejected errModelNotFound "Model failed to load" :=
  claim5_not_ready_amended 7 (by decide) (by decide)

/-- C6 counterexample: after a load cycle in which every attempt fails
with `OutOfMemory`, the error surfaced by the Android load path is the
fixed generic string thrown by `loadAndroidModel`, not the last
failure's category. -/
theorem claim6_error_category_counterexample :
    loadModelAndroidResult alwaysOOM defaultConfig
      = (false, some androidRetryExhaustedMessage)
    ∧ (some androidRetryExhaustedMessage : Option String)
        ≠ some "OutOfMemory" := by
  refine ⟨rfl, by simp [androidRetryExhaustedMessage]⟩

/-- C6 (amended): when every retry attempt of a load fails, the
controller does end in its error state — `loadModel` returns `false` and
`status.error` is set — but the surfaced error is the generic
"Android model loading failed after all retry attempts" message:
`loadModelWithRetry` discards the caught per-attempt errors, so the last
failure's category is never propagated. -/
theorem claim6_error_category_amended (outcomes : ℕ → AttemptOutcome)
    (h : ∀ n, outcomes n ≠ AttemptOutcome.success) :
    loadModelAndroidResult outcomes defaultConfig
      = (false, some androidRetryExhaustedMessage) := by
  simp [loadModelAndroidResult, loadAndroidModelOutcome,
    loadModelWithRetrySucceeds, tsRetryLoop_all_fail outcomes h]

/-- Witness for claim6: the amended theorem at the all-out-of-memory
outcome assignment. -/
theorem claim6_error_category_witness :
    loadModelAndroidResult alwaysOOM defaultConfig
      = (false, some androidRetryExhaustedMessage) :=
  claim6_error_category_amended alwaysOOM (by intro n; simp [alwaysOOM])

/-- C7: the metrics history never holds more than
`maxHistorySize = 100` records; eviction is FIFO — after `N + 1` record
calls the retained history is exactly the pushed records with the first
(oldest) one dropped, and in the concrete numbered sequence the oldest
record (token count 0) is absent from the retained history (and hence
from every statistic, each being a function of that history alone). -/
theorem claim7_ring_buffer_fifo :
    (∀ (t : ℕ) (rs : List RecordArgs),
        ((applyRecords (initialMetrics t) rs).metrics).length ≤ maxHistorySize)
    ∧ (∀ (t : ℕ) (rs : List RecordArgs), rs.length = maxHistorySize + 1 →
        (applyRecords (initialMetrics t) rs).metrics
          = (rs.map mkRecord).drop 1)
    ∧ ((applyRecords (initialMetrics 0)
          (numberedArgs (maxHistorySize + 1))).metrics.all
        (fun m => decide (m.tokenCount ≠ 0)) = true) := by
  have hdrop : ∀ (t : ℕ) (rs : List RecordArgs), rs.length = maxHistorySize + 1 →
      (applyRecords (initialMetrics t) rs).metrics = (rs.map mkRecord).drop 1 := by
    intro t rs h
    rw [applyRecords_from_empty]
    have hlen : (rs.map mkRecord).length = maxHistorySize + 1 := by simp [h]
    simp only [sliceLast, if_neg (by decide : ¬ maxHistorySize = 0), hlen]
    have h1 : maxHistorySize + 1 - maxHistorySize = 1 := by omega
    rw [h1]
  refine ⟨?_, hdrop, ?_⟩
  · intro t rs
    rw [applyRecords_from_empty]
    exact sliceLast_length_le _ (by decide) _
  · rw [hdrop 0 _ (by simp [numberedArgs])]
    unfold numberedArgs
    rw [List.map_map, ← List.map_drop, List.range_succ_eq_map]
    simp [mkRecord]

/-- Witness for claim7: the FIFO conjunct applied to the concrete
101-record numbered sequence, its length hypothesis discharged by
computation. -/
theorem claim7_ring_buffer_fifo_witness :
    (applyRecords (initialMetrics 0) (numberedArgs (maxHistorySize + 1))).metrics
      = ((numberedArgs (maxHistorySize + 1)).map mkRecord).drop 1 :=
  claim7_ring_buffer_fifo.2.1 0 _ (by simp [numberedArgs])

/-- C8: the GPU backend is selected only when the Vulkan hardware
feature is present and total memory is at least 6 GB (truncated to whole
gigabytes), and on a device with 3000 MB of total memory every load
selects CPU — whatever the SDK and Vulkan flags report, and although the
Kotlin load path always asks for GPU (`preferGPU = true`, i.e. no caller
preference pins CPU). -/
theorem claim8_gpu_memory_gate :
    (∀ caps : DeviceCaps, initializeModelBackend caps = Backend.GPU →
        caps.hasVulkanHardwareCompute = true ∧ 6 ≤ getAvailableMemoryGB caps)
    ∧ (∀ sdk vulkan : Bool,
        initializeModelBackend
          { sdkAtLeastN := sdk, hasVulkanHardwareCompute := vulkan,
            totalMemBytes := 3000 * 1024 * 1024 } = Backend.CPU) := by
  constructor
  · intro caps h
    unfold initializeModelBackend createLlmInferenceOptionsBackend at h
    by_cases hg : (true && isGPUSupported caps) = true
    · unfold isGPUSupported at hg
      simp only [Bool.true_and, Bool.and_eq_true, decide_eq_true_eq] at hg
      exact ⟨hg.1.2, hg.2⟩
    · rw [if_neg hg] at h
      exact absurd h (by simp)
  · intro sdk vulkan
    have hmem : getAvailableMemoryGB
        { sdkAtLeastN := sdk, hasVulkanHardwareCompute := vulkan,
          totalMemBytes := 3000 * 1024 * 1024 } = 2 := by
      show (3000 * 1024 * 1024) / (1024 * 1024 * 1024) = 2
      norm_num
    have hgpu : isGPUSupported
        { sdkAtLeastN := sdk, hasVulkanHardwareCompute := vulkan,
          totalMemBytes := 3000 * 1024 * 1024 } = false := by
      unfold isGPUSupported
      rw [hmem]
      simp
    unfold initializeModelBackend createLlmInferenceOptionsBackend
    rw [hgpu]
    simp

/-- Witness for claim8: the only-if direction applied to a Vulkan-capable
8 GB device, on which the selected backend computes to GPU. -/
theorem claim8_gpu_memory_gate_witness :
    DeviceCaps.hasVulkanHardwareCompute
        { sdkAtLeastN := true, hasVulkanHardwareCompute := true,
          totalMemBytes := 8 * 1024 * 1024 * 1024 } = true
    ∧ 6 ≤ getAvailableMemoryGB
        { sdkAtLeastN := true, hasVulkanHardwareCompute := true,
          totalMemBytes := 8 * 1024 * 1024 * 1024 } :=
  claim8_gpu_memory_gate.1 _ (by decide)

/-- C9: exporting the session immediately after clearing the metrics at
time `t` yields a report with no retained records, zero total
inferences, and session duration exactly `t - t = 0`, because
`clearHistory` empties the buffer and resets the session clock. -/
theorem claim9_export_after_clear (s : MetricsState) (t : ℕ) :
    (exportMetrics (clearHistory s t) t).allMetrics = []
    ∧ (exportMetrics (clearHistory s t) t).sessionInfo.duration = 0
    ∧ (exportMetrics (clearHistory s t) t).performanceStats.totalInferences
        = 0 := by
  refine ⟨rfl, by simp [exportMetrics, clearHistory], rfl⟩

/-- C10 counterexample: on an empty history the performance-stats
snapshot does not have all numeric fields zero — its `sessionStartTime`
field reports the stored session start (here 5), not 0. -/
theorem claim10_empty_stats_counterexample :
    (getPerformanceStats (initialMetrics 5)).sessionStartTime = 5
    ∧ (getPerformanceStats (initialMetrics 5)).sessionStartTime ≠ 0 := by
  exact ⟨rfl, by decide⟩

/-- C10 (amended): on an empty history every read-only statistics
operation returns a total, zero-valued result — every field of the
performance-stats snapshot is 0 except `sessionStartTime`, which reports
the stored session start; the percentile quadruple, the rolling average
and the inference rate are all 0 — and none of them divides by the empty
count (each guards the empty case explicitly). -/
theorem claim10_empty_stats_amended (s : MetricsState) (h : s.metrics = [])
    (metric : InferenceMetrics → ℚ) (w now : ℕ) :
    getPerformanceStats s =
      { totalInferences := 0
        averageInferenceTime := 0
        averageTokensPerSecond := 0
        totalTokens := 0
        fastestInference := 0
        slowestInference := 0
        lastInferenceTime := 0
        sessionStartTime := s.sessionStartTime }
    ∧ getPercentiles s metric = { p50 := 0, p90 := 0, p95 := 0, p99 := 0 }
    ∧ getRollingAverage s metric w = 0
    ∧ getInferenceRate s now = 0 := by
  obtain ⟨ms, t⟩ := s
  simp only at h
  subst h
  refine ⟨rfl, ?_, ?_, ?_⟩ <;>
    simp [getPercentiles, getRollingAverage, getInferenceRate]

/-- Witness for claim10: the amended theorem at a concrete fresh
manager, window size and clock reading. -/
theorem claim10_empty_stats_witness :
    (initialMetrics 3).metrics = []
    ∧ getPercentiles (initialMetrics 3) (·.inferenceTimeMs)
        = { p50 := 0, p90 := 0, p95 := 0, p99 := 0 }
    ∧ getRollingAverage (initialMetrics 3) (·.inferenceTimeMs) 5 = 0
    ∧ getInferenceRate (initialMetrics 3) 7 = 0 :=
  ⟨rfl, (claim10_empty_stats_amended (initialMetrics 3) rfl
    (·.inferenceTimeMs) 5 7).2⟩

end Gemma
